import Mathlib

/-!
Verification development for the notion-db repository.

The Python modules under `src/notiondb` (PropertyValues.py, Row.py, Schema.py)
and the alternate implementation under `src/notion` (Schema.py, Types.py) are
shallowly embedded below.  Python runtime values are modelled by the inductive
type `PyVal`; Python dictionaries are ordered association lists; code that can
raise returns `Except PyErr`.  Python floats only ever carry exact decimal
literals in the behaviours studied here, so they are modelled as rationals.
-/

deriving instance DecidableEq for Except

namespace NotionDB

/-- Python runtime values, as far as the library manipulates them.
A Python `None` is `PyVal.none`; `bool` is kept separate from `int` even
though Python `bool` is an `int` subclass, and the `isinstance` tests below
account for that subtyping.  A `datetime` is carried by its `isoformat`
string. -/
inductive PyVal where
  | none : PyVal
  | bool (b : Bool) : PyVal
  | int (n : Int) : PyVal
  | float (q : Rat) : PyVal
  | str (s : String) : PyVal
  | list (xs : List PyVal) : PyVal
  | dict (fields : List (String × PyVal)) : PyVal
  | datetime (iso : String) : PyVal
deriving Repr

mutual

/-- Decidable equality for `PyVal`, written by hand because the deriving
handler does not support nested inductives. -/
def PyVal.decEq : (a b : PyVal) → Decidable (a = b)
  | .none, .none => isTrue rfl
  | .bool x, .bool y =>
    if h : x = y then isTrue (by rw [h])
    else isFalse (fun hh => h (by injection hh))
  | .int x, .int y =>
    if h : x = y then isTrue (by rw [h])
    else isFalse (fun hh => h (by injection hh))
  | .float x, .float y =>
    if h : x = y then isTrue (by rw [h])
    else isFalse (fun hh => h (by injection hh))
  | .str x, .str y =>
    if h : x = y then isTrue (by rw [h])
    else isFalse (fun hh => h (by injection hh))
  | .datetime x, .datetime y =>
    if h : x = y then isTrue (by rw [h])
    else isFalse (fun hh => h (by injection hh))
  | .list xs, .list ys =>
    match PyVal.decEqList xs ys with
    | isTrue h => isTrue (by rw [h])
    | isFalse h => isFalse (fun hh => h (by injection hh))
  | .dict xs, .dict ys =>
    match PyVal.decEqDict xs ys with
    | isTrue h => isTrue (by rw [h])
    | isFalse h => isFalse (fun hh => h (by injection hh))
  | .none, .bool _ => isFalse (fun h => PyVal.noConfusion h)
  | .none, .int _ => isFalse (fun h => PyVal.noConfusion h)
  | .none, .float _ => isFalse (fun h => PyVal.noConfusion h)
  | .none, .str _ => isFalse (fun h => PyVal.noConfusion h)
  | .none, .list _ => isFalse (fun h => PyVal.noConfusion h)
  | .none, .dict _ => isFalse (fun h => PyVal.noConfusion h)
  | .none, .datetime _ => isFalse (fun h => PyVal.noConfusion h)
  | .bool _, .none => isFalse (fun h => PyVal.noConfusion h)
  | .bool _, .int _ => isFalse (fun h => PyVal.noConfusion h)
  | .bool _, .float _ => isFalse (fun h => PyVal.noConfusion h)
  | .bool _, .str _ => isFalse (fun h => PyVal.noConfusion h)
  | .bool _, .list _ => isFalse (fun h => PyVal.noConfusion h)
  | .bool _, .dict _ => isFalse (fun h => PyVal.noConfusion h)
  | .bool _, .datetime _ => isFalse (fun h => PyVal.noConfusion h)
  | .int _, .none => isFalse (fun h => PyVal.noConfusion h)
  | .int _, .bool _ => isFalse (fun h => PyVal.noConfusion h)
  | .int _, .float _ => isFalse (fun h => PyVal.noConfusion h)
  | .int _, .str _ => isFalse (fun h => PyVal.noConfusion h)
  | .int _, .list _ => isFalse (fun h => PyVal.noConfusion h)
  | .int _, .dict _ => isFalse (fun h => PyVal.noConfusion h)
  | .int _, .datetime _ => isFalse (fun h => PyVal.noConfusion h)
  | .float _, .none => isFalse (fun h => PyVal.noConfusion h)
  | .float _, .bool _ => isFalse (fun h => PyVal.noConfusion h)
  | .float _, .int _ => isFalse (fun h => PyVal.noConfusion h)
  | .float _, .str _ => isFalse (fun h => PyVal.noConfusion h)
  | .float _, .list _ => isFalse (fun h => PyVal.noConfusion h)
  | .float _, .dict _ => isFalse (fun h => PyVal.noConfusion h)
  | .float _, .datetime _ => isFalse (fun h => PyVal.noConfusion h)
  | .str _, .none => isFalse (fun h => PyVal.noConfusion h)
  | .str _, .bool _ => isFalse (fun h => PyVal.noConfusion h)
  | .str _, .int _ => isFalse (fun h => PyVal.noConfusion h)
  | .str _, .float _ => isFalse (fun h => PyVal.noConfusion h)
  | .str _, .list _ => isFalse (fun h => PyVal.noConfusion h)
  | .str _, .dict _ => isFalse (fun h => PyVal.noConfusion h)
  | .str _, .datetime _ => isFalse (fun h => PyVal.noConfusion h)
  | .list _, .none => isFalse (fun h => PyVal.noConfusion h)
  | .list _, .bool _ => isFalse (fun h => PyVal.noConfusion h)
  | .list _, .int _ => isFalse (fun h => PyVal.noConfusion h)
  | .list _, .float _ => isFalse (fun h => PyVal.noConfusion h)
  | .list _, .str _ => isFalse (fun h => PyVal.noConfusion h)
  | .list _, .dict _ => isFalse (fun h => PyVal.noConfusion h)
  | .list _, .datetime _ => isFalse (fun h => PyVal.noConfusion h)
  | .dict _, .none => isFalse (fun h => PyVal.noConfusion h)
  | .dict _, .bool _ => isFalse (fun h => PyVal.noConfusion h)
  | .dict _, .int _ => isFalse (fun h => PyVal.noConfusion h)
  | .dict _, .float _ => isFalse (fun h => PyVal.noConfusion h)
  | .dict _, .str _ => isFalse (fun h => PyVal.noConfusion h)
  | .dict _, .list _ => isFalse (fun h => PyVal.noConfusion h)
  | .dict _, .datetime _ => isFalse (fun h => PyVal.noConfusion h)
  | .datetime _, .none => isFalse (fun h => PyVal.noConfusion h)
  | .datetime _, .bool _ => isFalse (fun h => PyVal.noConfusion h)
  | .datetime _, .int _ => isFalse (fun h => PyVal.noConfusion h)
  | .datetime _, .float _ => isFalse (fun h => PyVal.noConfusion h)
  | .datetime _, .str _ => isFalse (fun h => PyVal.noConfusion h)
  | .datetime _, .list _ => isFalse (fun h => PyVal.noConfusion h)
  | .datetime _, .dict _ => isFalse (fun h => PyVal.noConfusion h)

/-- Decidable equality for lists of `PyVal`. -/
def PyVal.decEqList : (xs ys : List PyVal) → Decidable (xs = ys)
  | [], [] => isTrue rfl
  | [], _ :: _ => isFalse (fun h => List.noConfusion h)
  | _ :: _, [] => isFalse (fun h => List.noConfusion h)
  | x :: xs, y :: ys =>
    match PyVal.decEq x y with
    | isFalse h => isFalse (fun hh => h (by injection hh))
    | isTrue h1 =>
      match PyVal.decEqList xs ys with
      | isTrue h2 => isTrue (by rw [h1, h2])
      | isFalse h2 => isFalse (fun hh => h2 (by injection hh))

/-- Decidable equality for string-keyed association lists of `PyVal`. -/
def PyVal.decEqDict : (xs ys : List (String × PyVal)) → Decidable (xs = ys)
  | [], [] => isTrue rfl
  | [], _ :: _ => isFalse (fun h => List.noConfusion h)
  | _ :: _, [] => isFalse (fun h => List.noConfusion h)
  | (k1, v1) :: xs, (k2, v2) :: ys =>
    if hk : k1 = k2 then
      match PyVal.decEq v1 v2 with
      | isFalse h => isFalse (fun hh => by
          injection hh with hh1 hh2
          exact h (congrArg Prod.snd hh1))
      | isTrue hv =>
        match PyVal.decEqDict xs ys with
        | isTrue ht => isTrue (by rw [hk, hv, ht])
        | isFalse ht => isFalse (fun hh => ht (by injection hh))
    else
      isFalse (fun hh => by
        injection hh with hh1 hh2
        exact hk (congrArg Prod.fst hh1))

end

instance : DecidableEq PyVal := PyVal.decEq

/-- Python exceptions raised by the embedded code. -/
inductive PyErr where
  | valueError (msg : String) : PyErr
  | typeError : PyErr
  | notImplementedError (msg : String) : PyErr
  | keyError (k : String) : PyErr
  | indexError : PyErr
deriving DecidableEq, Repr

/-- First-match lookup in an ordered association list (Python dict read). -/
def alookup {α : Type} (l : List (String × α)) (k : String) : Option α :=
  match l with
  | [] => Option.none
  | (k2, v) :: t => if k2 == k then some v else alookup t k

/-- Key membership in an ordered association list (Python `k in d`). -/
def ahas {α : Type} (l : List (String × α)) (k : String) : Bool :=
  match l with
  | [] => false
  | (k2, _) :: t => k2 == k || ahas t k

/-- Python dict assignment `d[k] = v`: replaces in place if the key exists
(keeping its position, as CPython dicts do), otherwise appends. -/
def aset {α : Type} (l : List (String × α)) (k : String) (v : α) :
    List (String × α) :=
  match l with
  | [] => [(k, v)]
  | (k2, v2) :: t => if k2 == k then (k2, v) :: t else (k2, v2) :: aset t k v

/-- Python `d.pop(k)` on a dict known to contain `k`: removes the entry. -/
def aremove {α : Type} (l : List (String × α)) (k : String) :
    List (String × α) :=
  match l with
  | [] => []
  | (k2, v2) :: t => if k2 == k then t else (k2, v2) :: aremove t k

/-- Dict read `d[k]` used only after a membership check; the default is
never reached on the guarded paths. -/
def aget (l : List (String × PyVal)) (k : String) : PyVal :=
  (alookup l k).getD PyVal.none

/-- Tests whether a value is Python `None`. -/
def isNoneV : PyVal → Bool
  | .none => true
  | _ => false

/-- Models Python `isinstance(v, str)`. -/
def isStrV : PyVal → Bool
  | .str _ => true
  | _ => false

/-- Models Python `isinstance(v, bool)`. -/
def isBoolV : PyVal → Bool
  | .bool _ => true
  | _ => false

/-- Models Python `isinstance(v, int)`.  A Python `bool` is a subclass of
`int`, so booleans also satisfy this test. -/
def isIntV : PyVal → Bool
  | .int _ => true
  | .bool _ => true
  | _ => false

/-- Converts digits to a natural number; fails on empty or non-digit input.
Helper for the model of the Python builtin `float`. -/
def digitsToNat (cs : List Char) : Option Nat :=
  match cs with
  | [] => Option.none
  | _ =>
    cs.foldl
      (fun acc c =>
        match acc with
        | Option.none => Option.none
        | some n => if c.isDigit then some (n * 10 + (c.toNat - 48)) else Option.none)
      (some 0)

/-- Models the Python builtin `float` applied to a string, for the plain
decimal literals the library meets: optional sign, an integer part, and an
optional fractional part.  Anything else raises `ValueError`, as `float`
does.  The result is an exact rational, which is faithful for the decimal
literals exercised by the claims. -/
def pyFloat (s : String) : Except PyErr Rat :=
  let cs := s.data
  let (neg, cs) :=
    match cs with
    | '-' :: rest => (true, rest)
    | '+' :: rest => (false, rest)
    | _ => (false, cs)
  let intPart := cs.takeWhile (fun c => c != '.')
  let rest := cs.dropWhile (fun c => c != '.')
  let res : Option Rat :=
    match rest with
    | [] =>
      (digitsToNat intPart).map (fun n => (n : Rat))
    | _ :: frac =>
      match digitsToNat intPart, digitsToNat frac with
      | some n, some f =>
        some ((n : Rat) + (f : Rat) / ((10 : Rat) ^ frac.length))
      | _, _ => Option.none
  match res with
  | some q => .ok (if neg then -q else q)
  | Option.none => .error (.valueError ("could not convert string to float: " ++ s))

/-- Annotation flags of a rich text span, in the order the source builds the
annotation dictionary: bold, italic, strikethrough, underline, code, color. -/
structure Annots where
  bold : Bool := false
  italic : Bool := false
  strikethrough : Bool := false
  underline : Bool := false
  code : Bool := false
  color : String := "default"
deriving DecidableEq, Repr

/-- The default annotation dictionary produced when no styling arguments are
passed to a property value constructor. -/
def defaultAnnots : Annots := {}

/-- Model of `_RichTextObject` from PropertyValues.py.  The source stores
`type` (always the string text), a text dictionary holding `content` and
`link`, the annotation dictionary, `plain_text` and `href`.  The constant
`type` field is reproduced by the wire rendering.  `content` and
`plain_text` are arbitrary Python values because the factory can feed the
constructor a non-string (this is what breaks the wire round trip). -/
structure RTO where
  content : PyVal
  link : PyVal := .none
  annots : Annots := defaultAnnots
  plain_text : PyVal := .none
  href : PyVal := .none
deriving DecidableEq, Repr

/-- Models `_RichTextObject(text, annots, text)` as called by the title and
rich text constructors: `plain_text` is `plain_text or text` in the source,
and both arguments are the same `text`, so it equals `text`. -/
def mkRTO (text : PyVal) (annots : Annots := defaultAnnots) : RTO :=
  { content := text, link := .none, annots := annots,
    plain_text := text, href := .none }

/-- Tagged union of the live property value variants of PropertyValues.py.
Each variant stores the attribute dictionary set up by its `__init__`: the
optional `id` and the kind payload.  `checkbox` takes no `id` parameter in
the source.  The stored payloads are arbitrary Python values because the
constructors never validate them. -/
inductive PropertyValue where
  | title (id : Option String) (title : List RTO) : PropertyValue
  | richText (id : Option String) (rich_text : List RTO) : PropertyValue
  | number (id : Option String) (number : PyVal) : PropertyValue
  | select (id : Option String) (name : PyVal) (color : Option PyVal) : PropertyValue
  | multiSelect (id : Option String) (names : List PyVal) : PropertyValue
  | date (id : Option String) (start : PyVal) (end_ : PyVal) (timezone : PyVal) : PropertyValue
  | checkbox (checkbox : PyVal) : PropertyValue
  | formula (id : Option String) (formula : PyVal) : PropertyValue
deriving DecidableEq, Repr

/-- The `type` attribute every variant constructor sets (the wire
discriminator string). -/
def PropertyValue.type : PropertyValue → String
  | .title .. => "title"
  | .richText .. => "rich_text"
  | .number .. => "number"
  | .select .. => "select"
  | .multiSelect .. => "multi_select"
  | .date .. => "date"
  | .checkbox .. => "checkbox"
  | .formula .. => "formula"

/-- The semantic `value` property of each variant: title and rich text read
`plain_text` of the first span (an empty span list raises IndexError, hence
the Option); number, checkbox and formula return the stored payload; select
returns the option name; multi select the list of names; date the stored
date dictionary. -/
def PropertyValue.value : PropertyValue → Option PyVal
  | .title _ rtos => rtos.head?.map (fun r => r.plain_text)
  | .richText _ rtos => rtos.head?.map (fun r => r.plain_text)
  | .number _ v => some v
  | .select _ nm _ => some nm
  | .multiSelect _ xs => some (.list xs)
  | .date _ s e t =>
    some (.dict [("start", s), ("end", e), ("timezone", t)])
  | .checkbox v => some v
  | .formula _ v => some v

/-- Model of `TitlePropertyValue.__init__` on the non-raw path: builds one
rich text span from the text and the annotation arguments. -/
def TitlePropertyValue.init (text : PyVal) (id : Option String := Option.none)
    (annots : Annots := defaultAnnots) : PropertyValue :=
  .title id [mkRTO text annots]

/-- Model of `RichTextPropertyValue.__init__` on the non-raw path. -/
def RichTextPropertyValue.init (text : PyVal) (id : Option String := Option.none)
    (annots : Annots := defaultAnnots) : PropertyValue :=
  .richText id [mkRTO text annots]

/-- Model of `NumberPropertyValue.__init__`: a string argument is converted
with the builtin `float` (which can raise ValueError); any other argument is
stored unchanged — in particular a native `int` stays an `int`. -/
def NumberPropertyValue.init (number : PyVal) (id : Option String := Option.none) :
    Except PyErr PropertyValue :=
  match number with
  | .str s => (pyFloat s).map (fun q => .number id (.float q))
  | v => .ok (.number id v)

/-- Model of `SelectPropertyValue.__init__`: stores the select option
dictionary with the name, and the color only when one is given. -/
def SelectPropertyValue.init (name : PyVal) (color : Option PyVal := Option.none)
    (id : Option String := Option.none) : PropertyValue :=
  .select id name color

/-- Models Python iteration over a value, as the multi select list
comprehension performs it: lists yield their elements, strings their
characters, dictionaries their keys; other values raise TypeError. -/
def pyIter : PyVal → Except PyErr (List PyVal)
  | .list xs => .ok xs
  | .str s => .ok (s.data.map (fun c => .str (String.mk [c])))
  | .dict fs => .ok (fs.map (fun kv => .str kv.1))
  | _ => .error .typeError

/-- Model of `MultiSelectPropertyValue.__init__`: iterates the names and
stores one name-dictionary per element (only the element itself is kept in
the model; the rendering re-wraps it). -/
def MultiSelectPropertyValue.init (names : PyVal) (id : Option String := Option.none) :
    Except PyErr PropertyValue :=
  (pyIter names).map (fun xs => .multiSelect id xs)

/-- Models the datetime-to-string conversion the date constructor applies:
a datetime becomes its isoformat string, anything else is left alone. -/
def pyIso : PyVal → PyVal
  | .datetime s => .str s
  | v => v

/-- Model of `DatePropertyValue.__init__`: start and end are converted from
datetime to string, the timezone is stored as given, and all three live in
the stored date dictionary (absent ones as Python None). -/
def DatePropertyValue.init (start : PyVal) (end_ : PyVal := .none)
    (timezone : PyVal := .none) (id : Option String := Option.none) : PropertyValue :=
  .date id (pyIso start) (pyIso end_) timezone

/-- Model of `CheckboxPropertyValue.__init__` (the source takes no id). -/
def CheckboxPropertyValue.init (checked : PyVal) : PropertyValue :=
  .checkbox checked

/-- Model of `FormulaPropertyValue.__init__`. -/
def FormulaPropertyValue.init (formula : PyVal) (id : Option String := Option.none) :
    PropertyValue :=
  .formula id formula

/-- Renders an optional id the way the base `__init__` receives it. -/
def idVal : Option String → PyVal
  | Option.none => .none
  | some s => .str s

/-- Wire form of the annotation dictionary, in source field order. -/
def annotsVal (a : Annots) : PyVal :=
  .dict [("bold", .bool a.bold), ("italic", .bool a.italic),
         ("strikethrough", .bool a.strikethrough), ("underline", .bool a.underline),
         ("code", .bool a.code), ("color", .str a.color)]

/-- Wire form of a rich text span, mirroring `rich_text_object` (the
instance dictionary of `_RichTextObject`, in attribute assignment order). -/
def rtoVal (r : RTO) : PyVal :=
  .dict [("type", .str "text"),
         ("text", .dict [("content", r.content), ("link", r.link)]),
         ("annotations", annotsVal r.annots),
         ("plain_text", r.plain_text),
         ("href", r.href)]

/-- The base `PropertyValue.__init__` sets an attribute for each keyword
argument whose value is not Python None; this drops the skipped ones. -/
def filterKwargs (l : List (String × PyVal)) : List (String × PyVal) :=
  l.filter (fun kv => !isNoneV kv.2)

/-- The select option dictionary: the color key is present only when a
color is stored. -/
def selectDict (name : PyVal) (color : Option PyVal) : PyVal :=
  match color with
  | some c => .dict [("name", name), ("color", c)]
  | Option.none => .dict [("name", name)]

/-- Model of the `notion` property (alias of `to_dict`): the instance
dictionary, that is the non-None keyword arguments of `__init__` in order,
with each payload rendered to wire JSON. -/
def PropertyValue.notion : PropertyValue → PyVal
  | .title id rtos =>
    .dict (filterKwargs
      [("type", .str "title"), ("id", idVal id),
       ("title", .list (rtos.map rtoVal))])
  | .richText id rtos =>
    .dict (filterKwargs
      [("type", .str "rich_text"), ("id", idVal id),
       ("rich_text", .list (rtos.map rtoVal))])
  | .number id v =>
    .dict (filterKwargs
      [("type", .str "number"), ("id", idVal id), ("number", v)])
  | .select id nm c =>
    .dict (filterKwargs
      [("type", .str "select"), ("id", idVal id), ("select", selectDict nm c)])
  | .multiSelect id xs =>
    .dict (filterKwargs
      [("type", .str "multi_select"), ("id", idVal id),
       ("multi_select", .list (xs.map (fun x => .dict [("name", x)])))])
  | .date id s e t =>
    .dict (filterKwargs
      [("type", .str "date"), ("id", idVal id),
       ("date", .dict [("start", s), ("end", e), ("timezone", t)])])
  | .checkbox v =>
    .dict (filterKwargs [("type", .str "checkbox"), ("checkbox", v)])
  | .formula id v =>
    .dict (filterKwargs
      [("type", .str "formula"), ("id", idVal id), ("formula", v)])

namespace PropertyValueFactory

/-- Model of `_PropertyValueFactory.create` (the wire deserializer): tests
the kind keys of the input dictionary in source order and hands the bare
payload `data[kind]` to that kind constructor.  The commented-out kinds of
the source fall through to the final ValueError.  `RelationPropertyValue`
takes keyword arguments only, so the positional call raises TypeError.
A non-dictionary input also fails. -/
def create (data : PyVal) : Except PyErr PropertyValue :=
  match data with
  | .dict fs =>
    if ahas fs "title" then .ok (TitlePropertyValue.init (aget fs "title"))
    else if ahas fs "rich_text" then .ok (RichTextPropertyValue.init (aget fs "rich_text"))
    else if ahas fs "number" then NumberPropertyValue.init (aget fs "number")
    else if ahas fs "select" then .ok (SelectPropertyValue.init (aget fs "select"))
    else if ahas fs "multi_select" then MultiSelectPropertyValue.init (aget fs "multi_select")
    else if ahas fs "date" then .ok (DatePropertyValue.init (aget fs "date"))
    else if ahas fs "checkbox" then .ok (CheckboxPropertyValue.init (aget fs "checkbox"))
    else if ahas fs "formula" then .ok (FormulaPropertyValue.init (aget fs "formula"))
    else if ahas fs "relation" then .error .typeError
    else .error (.valueError "Invalid property value")
  | _ => .error .typeError

/-- Model of `_PropertyValueFactory.infer_from_value`: isinstance tests in
source order — str, list, bool, int or float, datetime — then ValueError.
The bool test precedes the int test, so booleans become checkboxes even
though Python booleans are ints. -/
def infer_from_value (value : PyVal) : Except PyErr PropertyValue :=
  if isStrV value then .ok (RichTextPropertyValue.init value)
  else
    match value with
    | .list xs => MultiSelectPropertyValue.init (.list xs)
    | _ =>
      if isBoolV value then .ok (CheckboxPropertyValue.init value)
      else if isIntV value || (match value with | .float _ => true | _ => false) then
        NumberPropertyValue.init value
      else
        match value with
        | .datetime iso => .ok (DatePropertyValue.init (.datetime iso))
        | _ => .error (.valueError "Could not infer property value type from type")

/-- Model of `_PropertyValueFactory.from_type`: dispatches on the kind
string.  The reserved kinds (people, file, url, email, phone_number,
rollup) are commented out in the source and fall through to the ValueError;
`relation` reaches `RelationPropertyValue(value)`, a positional call into a
keyword-only `__init__`, which raises TypeError. -/
def from_type (type : String) (value : PyVal) : Except PyErr PropertyValue :=
  if type == "title" then .ok (TitlePropertyValue.init value)
  else if type == "rich_text" || type == "text" then .ok (RichTextPropertyValue.init value)
  else if type == "number" then NumberPropertyValue.init value
  else if type == "select" then .ok (SelectPropertyValue.init value)
  else if type == "multi_select" then MultiSelectPropertyValue.init value
  else if type == "date" then .ok (DatePropertyValue.init value)
  else if type == "checkbox" then .ok (CheckboxPropertyValue.init value)
  else if type == "formula" then .ok (FormulaPropertyValue.init value)
  else if type == "relation" then .error .typeError
  else .error (.valueError ("Invalid property value type " ++ type))

end PropertyValueFactory

/-- Model of `TitlePropertyValue.update`: raises NotImplementedError
unconditionally, leaving the receiver untouched. -/
def TitlePropertyValue.update (_self : PropertyValue) (_text : PyVal) :
    Except PyErr PropertyValue :=
  .error (.notImplementedError "Title property values cannot be updated.")

/-- Model of `RichTextPropertyValue.update` without styling keyword
arguments: overwrites `rich_text[0].text.content` with the new text and
nothing else — in particular `plain_text` keeps the old text.  An empty
span list would raise IndexError; a receiver of another variant has no
`rich_text` attribute. -/
def RichTextPropertyValue.update (self : PropertyValue) (text : PyVal) :
    Except PyErr PropertyValue :=
  match self with
  | .richText id rtos =>
    match rtos with
    | [] => .error .indexError
    | r :: rest => .ok (.richText id ({ r with content := text } :: rest))
  | _ => .error .typeError

/-- Model of `NumberPropertyValue.update`: converts a string argument with
the builtin `float`, stores anything else unchanged. -/
def NumberPropertyValue.update (self : PropertyValue) (number : PyVal) :
    Except PyErr PropertyValue :=
  match self with
  | .number id _ =>
    match number with
    | .str s => (pyFloat s).map (fun q => .number id (.float q))
    | v => .ok (.number id v)
  | _ => .error .typeError

/-- Model of `SelectPropertyValue.update`: each of name and color is
replaced only when the argument is not Python None. -/
def SelectPropertyValue.update (self : PropertyValue) (name : Option PyVal)
    (color : Option PyVal) : Except PyErr PropertyValue :=
  match self with
  | .select id nm c =>
    .ok (.select id (name.getD nm) (match color with | some cv => some cv | Option.none => c))
  | _ => .error .typeError

/-- Model of `MultiSelectPropertyValue.update`: a bare string is wrapped
into a one-element list first, then the names are iterated and re-stored as
option dictionaries. -/
def MultiSelectPropertyValue.update (self : PropertyValue) (names : PyVal) :
    Except PyErr PropertyValue :=
  match self with
  | .multiSelect id _ =>
    let names := match names with | .str s => .list [.str s] | v => v
    (pyIter names).map (fun xs => .multiSelect id xs)
  | _ => .error .typeError

/-- Model of `DatePropertyValue.update`: each of start, end and timezone is
replaced only when the argument is not Python None, with datetimes
converted to their isoformat strings. -/
def DatePropertyValue.update (self : PropertyValue) (start : PyVal := .none)
    (end_ : PyVal := .none) (timezone : PyVal := .none) :
    Except PyErr PropertyValue :=
  match self with
  | .date id s0 e0 t0 =>
    .ok (.date id
      (match start with | .none => s0 | v => pyIso v)
      (match end_ with | .none => e0 | v => pyIso v)
      (match timezone with | .none => t0 | v => v))
  | _ => .error .typeError

/-- Model of `CheckboxPropertyValue.update`. -/
def CheckboxPropertyValue.update (self : PropertyValue) (checked : PyVal) :
    Except PyErr PropertyValue :=
  match self with
  | .checkbox _ => .ok (.checkbox checked)
  | _ => .error .typeError

/-- Model of `FormulaPropertyValue.update`. -/
def FormulaPropertyValue.update (self : PropertyValue) (formula : PyVal) :
    Except PyErr PropertyValue :=
  match self with
  | .formula id _ => .ok (.formula id formula)
  | _ => .error .typeError

/-- Model of the `SchemaProperty` class used by notiondb/Schema.py.

Modelled from the spec: the file notiondb/SchemaProperty.py is absent from
the source tree; only its callers in notiondb/Schema.py, the tests and the
spec describe it.  Spec section 3: a SchemaProperty is name, kind,
optional id and config, with config normalized to an empty object when
unset. -/
structure SchemaProperty where
  name : Option String := Option.none
  type : String
  id : Option String := Option.none
  config : PyVal := .dict []
deriving DecidableEq, Repr

/-- Argument of `Schema._add_column`: either a kind string or a pre-built
SchemaProperty. -/
inductive ColSpec where
  | kindStr (s : String) : ColSpec
  | prop (p : SchemaProperty) : ColSpec

/-- Model of the notiondb `Schema`: an ordered mapping from column name to
SchemaProperty. -/
structure Schema where
  _columns : List (String × SchemaProperty)
deriving DecidableEq, Repr

/-- Model of `Schema._add_column`: wraps a kind string into a
SchemaProperty and assigns the column slot.  The source performs no
duplicate check and no title check: an existing name is silently
overwritten. -/
def Schema._add_column (s : Schema) (name : String) (t : ColSpec) : Schema :=
  match t with
  | .kindStr str => ⟨aset s._columns name { name := some name, type := str }⟩
  | .prop p => ⟨aset s._columns name p⟩

/-- Model of `Schema.__setitem__`, which just delegates to `_add_column`. -/
def Schema.setitem (s : Schema) (key : String) (value : ColSpec) : Schema :=
  s._add_column key value

/-- Model of `Schema.__init__` from a dictionary of column name to kind
string: adds each column in order, with no validation. -/
def Schema.ofDict (columns : List (String × String)) : Schema :=
  columns.foldl (fun s kv => s._add_column kv.1 (.kindStr kv.2)) ⟨[]⟩

/-- Model of `Schema.__init__` from parallel label and kind lists: fails
with ValueError when types is missing for the list form or on a length
mismatch, then adds pairwise. -/
def Schema.ofLists (columns : List String) (types : Option (List String)) :
    Except PyErr Schema :=
  match types with
  | Option.none =>
    .error (.valueError "If columns is a list, then types must be a list of types.")
  | some ts =>
    if columns.length != ts.length then
      .error (.valueError "List size of columns does not match the size of types.")
    else
      .ok (Schema.ofDict (columns.zip ts))

/-- Model of the `labels` property. -/
def Schema.labels (s : Schema) : List String :=
  s._columns.map (fun kv => kv.1)

/-- Model of the `types` property. -/
def Schema.types (s : Schema) : List String :=
  s._columns.map (fun kv => kv.2.type)

/-- Number of columns of kind title; the property the schema claims are
about (the source never computes it). -/
def Schema.countTitles (s : Schema) : Nat :=
  (s._columns.filter (fun kv => kv.2.type == "title")).length

/-- Value given to `Row.__setitem__` and `Row._add`: either an explicit
PropertyValue object or a raw Python value. -/
inductive RowInput where
  | pv (p : PropertyValue) : RowInput
  | raw (v : PyVal) : RowInput

/-- Model of the notiondb `Row`: an ordered mapping from column name to
PropertyValue. -/
structure Row where
  data : List (String × PropertyValue)
deriving DecidableEq, Repr

/-- Model of `Row._add`: when the column already holds a title-kind value
and no explicit kind is given, the kind is forced to title (sticky title);
an explicit PropertyValue replaces the slot wholesale; otherwise the value
is built from the kind string, or inferred when there is none. -/
def Row._add (r : Row) (label : String) (value : RowInput) (type : Option String) :
    Except PyErr Row :=
  let type :=
    match alookup r.data label with
    | some pv0 =>
      if pv0.type == "title" then
        -- Python: type = type or "title"
        (match type with | Option.none => some "title" | some t => some t)
      else type
    | Option.none => type
  match value with
  | .pv p => .ok ⟨aset r.data label p⟩
  | .raw v =>
    match type with
    | some t => (PropertyValueFactory.from_type t v).map (fun p => ⟨aset r.data label p⟩)
    | Option.none => (PropertyValueFactory.infer_from_value v).map (fun p => ⟨aset r.data label p⟩)

/-- Model of `Row.__setitem__`: an explicit PropertyValue replaces the slot
directly (the sticky-title rule is bypassed); any other value goes through
`_add` with no explicit kind. -/
def Row.setitem (r : Row) (key : String) (value : RowInput) : Except PyErr Row :=
  match value with
  | .pv p => .ok ⟨aset r.data key p⟩
  | .raw v => r._add key (.raw v) Option.none

/-- Model of `Row.__init__` over a data dictionary.  When the types
dictionary is empty (Python falsy), the designated title column gets kind
title and every other kind is inferred; the unmatched integer default of
`title_column` is modelled by `Option.none`, since an int never equals a
string key.  With a non-empty types dictionary, each column kind is looked
up there, and a missing key raises KeyError. -/
def Row.initData (data : List (String × PyVal)) (types : List (String × String))
    (title_column : Option String := Option.none) : Except PyErr Row :=
  data.foldlM
    (fun r kv =>
      if types.isEmpty then
        let t : Option String :=
          if some kv.1 == title_column then some "title" else Option.none
        r._add kv.1 (.raw kv.2) t
      else
        match alookup types kv.1 with
        | some t => r._add kv.1 (.raw kv.2) (some t)
        | Option.none => .error (.keyError kv.1))
    ⟨[]⟩

/-- Model of `Row.from_schema`: delegates to the constructor with the types
dictionary zipped from the schema columns and types. -/
def Row.from_schema (values : List (String × PyVal)) (schema : Schema) :
    Except PyErr Row :=
  Row.initData values (schema.labels.zip schema.types)

/-! The alternate implementation under src/notion (Schema.py and Types.py),
which the Schema claims also cite: its `Schema.add` checks duplicates, and
its `Schema.rename_column` is the only rename in the repository. -/

/-- Model of the `Property` schema objects of notion/Types.py: the stored
type string, the name argument (an arbitrary Python value, because the
Formula constructor passes its config dictionary positionally into the name
slot), the kind config, and whether the object is an instance of the
`Title` class (what `Schema._update` tests with isinstance). -/
structure AltProperty where
  type : String
  name : PyVal
  config : PyVal := .dict []
  isTitleCls : Bool := false
deriving DecidableEq, Repr

/-- Model of `Schema._TYPE_MAP[datatype](name)` from notion/Schema.py: maps
a kind string to a constructed Property.  An unknown kind raises KeyError
at the map lookup.  The people, file, url, email and phone_number classes
take keyword arguments only, so the positional call raises TypeError;
Relation raises NotImplementedError in its body; Rollup is missing two
required arguments, raising TypeError.  Formula forwards its config
dictionary positionally into the name parameter of the base class. -/
def mkTypeProp (datatype : String) (name : String) : Except PyErr AltProperty :=
  if datatype == "title" then
    .ok { type := "title", name := .str name, isTitleCls := true }
  else if datatype == "text" || datatype == "rich_text" then
    .ok { type := "rich_text", name := .str name }
  else if datatype == "number" then
    .ok { type := "number", name := .str name,
          config := .dict [("format", .str "number")] }
  else if datatype == "select" then
    .ok { type := "select", name := .str name,
          config := .dict [("options", .list [])] }
  else if datatype == "multi_select" then
    .ok { type := "multi_select", name := .str name,
          config := .dict [("options", .list [])] }
  else if datatype == "date" then
    .ok { type := "date", name := .str name }
  else if datatype == "checkbox" then
    .ok { type := "checkbox", name := .str name }
  else if datatype == "formula" then
    .ok { type := "formula", name := .dict [("expression", .none)] }
  else if datatype == "people" || datatype == "file" || datatype == "url"
      || datatype == "email" || datatype == "phone_number" || datatype == "rollup" then
    .error .typeError
  else if datatype == "relation" then
    .error (.notImplementedError "File property not yet implemented.")
  else
    .error (.keyError datatype)

/-- Model of the notion `Schema`: ordered properties mapping plus the title
cache `_update` maintains.  A slot holds `Option AltProperty` because
`rename_column` assigns the Python None returned by `Property.rename`. -/
structure AltSchema where
  properties : List (String × Option AltProperty)
  title : Option String := Option.none
deriving DecidableEq, Repr

/-- Whether a list of labels contains a duplicate. -/
def hasDupLabel : List String → Bool
  | [] => false
  | x :: t => t.contains x || hasDupLabel t

/-- First label whose slot is an instance of the `Title` class, as the
isinstance loop of `Schema._update` finds it. -/
def firstTitleLabel : List (String × Option AltProperty) → Option String
  | [] => Option.none
  | (k, some p) :: t => if p.isTitleCls then some k else firstTitleLabel t
  | (_, Option.none) :: t => firstTitleLabel t

/-- Model of `Schema._update` from notion/Schema.py: re-checks label
uniqueness, recomputes the title column by isinstance, and — when no title
is found — merely constructs a `Warning` object that is immediately
discarded (a no-op, so a missing title is not actually surfaced). -/
def AltSchema._update (ns : AltSchema) : Except PyErr AltSchema :=
  if hasDupLabel (ns.properties.map (fun kv => kv.1)) then
    .error (.valueError "Duplicate column names found.")
  else
    .ok { ns with title := firstTitleLabel ns.properties }

/-- Model of `Schema.add` from notion/Schema.py on the datatype path (the
pre-built object path is not exercised by the claims): a duplicate name
raises ValueError before any mutation, otherwise the constructed property
is assigned and `_update` runs. -/
def AltSchema.add (ns : AltSchema) (name : String) (datatype : String) :
    Except PyErr AltSchema :=
  if ahas ns.properties name then
    .error (.valueError "Duplicate column name encountered.")
  else
    match mkTypeProp datatype name with
    | .error e => .error e
    | .ok p => AltSchema._update ⟨aset ns.properties name (some p), ns.title⟩

/-- Model of `Schema.rename_column`: after the presence and duplicate
checks, the source stores `self.properties.pop(old_name).rename(new_name)`.
`Property.rename` mutates the popped object in place but has no return
statement, so the value assigned to the new key is Python None and the
renamed property object is dropped. -/
def AltSchema.rename_column (ns : AltSchema) (old_name new_name : String) :
    Except PyErr AltSchema :=
  if !ahas ns.properties old_name then
    .error (.valueError "Column name not found.")
  else if ahas ns.properties new_name then
    .error (.valueError "Duplicate column name encountered.")
  else
    AltSchema._update
      ⟨aset (aremove ns.properties old_name) new_name Option.none, ns.title⟩

/-- Model of `Schema.__init__` from notion/Schema.py with parallel label
and type lists: a length mismatch raises ValueError, then each pair is
added in order. -/
def AltSchema.initLT (labels : List String) (types : List String) :
    Except PyErr AltSchema :=
  if labels.length != types.length then
    .error (.valueError "Labels and types must be the same length.")
  else
    (labels.zip types).foldlM (fun ns kv => ns.add kv.1 kv.2) ⟨[], Option.none⟩

/-- The Property object `_TYPE_MAP` builds for a number column named X
(used to state the rename evaluation). -/
def altNumberPropX : AltProperty :=
  { name := .str "X", type := "number", config := .dict [("format", .str "number")] }

/-! Helper lemmas about the association list operations. -/

theorem alookup_aset_self {α : Type} (l : List (String × α)) (k : String) (v : α) :
    alookup (aset l k v) k = some v := by
  induction l with
  | nil => simp [aset, alookup]
  | cons h t ih =>
    by_cases hk : h.1 == k
    · simp [aset, alookup, hk]
    · simp [aset, alookup, hk, ih]

theorem aset_append_of_not_ahas {α : Type} (l : List (String × α)) (k : String) (v : α)
    (h : ahas l k = false) : aset l k v = l ++ [(k, v)] := by
  induction l with
  | nil => simp [aset]
  | cons hd t ih =>
    simp only [ahas, Bool.or_eq_false_iff] at h
    simp [aset, h.1, ih h.2]

/-! Theorems settling the claims. -/

/-- C2: type inference (`infer_from_value`) is deterministic and total on
the listed shapes: booleans become checkbox values, ints and floats number
values, datetimes date values, lists multi select values (in particular
lists of strings), plain strings rich text values — never title values —
and any other input (a dictionary, or Python None) raises the
uninferable-type ValueError. -/
theorem c2_infer_deterministic :
    (∀ b : Bool, PropertyValueFactory.infer_from_value (.bool b)
        = .ok (CheckboxPropertyValue.init (.bool b)))
    ∧ (∀ n : Int, PropertyValueFactory.infer_from_value (.int n)
        = .ok (.number Option.none (.int n)))
    ∧ (∀ q : Rat, PropertyValueFactory.infer_from_value (.float q)
        = .ok (.number Option.none (.float q)))
    ∧ (∀ iso : String, PropertyValueFactory.infer_from_value (.datetime iso)
        = .ok (DatePropertyValue.init (.datetime iso)))
    ∧ (∀ ss : List String, PropertyValueFactory.infer_from_value (.list (ss.map PyVal.str))
        = .ok (.multiSelect Option.none (ss.map PyVal.str)))
    ∧ (∀ s : String, PropertyValueFactory.infer_from_value (.str s)
          = .ok (RichTextPropertyValue.init (.str s))
        ∧ (RichTextPropertyValue.init (.str s)).type = "rich_text")
    ∧ (∀ fs : List (String × PyVal), PropertyValueFactory.infer_from_value (.dict fs)
        = .error (.valueError "Could not infer property value type from type"))
    ∧ PropertyValueFactory.infer_from_value PyVal.none
        = .error (.valueError "Could not infer property value type from type") := by
  refine ⟨fun b => rfl, fun n => rfl, fun q => rfl, fun iso => rfl,
    fun ss => rfl, fun s => ⟨rfl, rfl⟩, fun fs => rfl, rfl⟩

/-- C5 counterexample: the claim says updating a rich text value raises an
Immutable error, but `RichTextPropertyValue.update` succeeds on the value
built from the text a, returning the updated object. -/
theorem c5_counterexample :
    RichTextPropertyValue.update (RichTextPropertyValue.init (.str "a")) (.str "b")
      = .ok (.richText Option.none
          [{ content := .str "b", link := PyVal.none, annots := defaultAnnots,
             plain_text := .str "a", href := PyVal.none }]) := by
  rfl

/-- C5 amended: update on a title value always raises NotImplementedError
(the Immutable condition) leaving the value untouched, while update on a
rich text value succeeds (overwriting the serialized text content), and
update on every mutable kind (number, select, multi select, date, checkbox,
formula) succeeds on well-formed arguments. -/
theorem c5_amended :
    (∀ (self : PropertyValue) (t : PyVal), TitlePropertyValue.update self t
        = .error (.notImplementedError "Title property values cannot be updated."))
    ∧ (∀ (s : String) (id : Option String) (t : PyVal),
        RichTextPropertyValue.update (RichTextPropertyValue.init (.str s) id) t
          = .ok (.richText id [{ mkRTO (.str s) with content := t }]))
    ∧ (∀ (id : Option String) (v : PyVal) (n : Int),
        NumberPropertyValue.update (.number id v) (.int n) = .ok (.number id (.int n)))
    ∧ (∀ (id : Option String) (v : PyVal) (q : Rat),
        NumberPropertyValue.update (.number id v) (.float q) = .ok (.number id (.float q)))
    ∧ (∀ (id : Option String) (nm : PyVal) (c : Option PyVal) (nm2 : PyVal),
        SelectPropertyValue.update (.select id nm c) (some nm2) Option.none
          = .ok (.select id nm2 c))
    ∧ (∀ (id : Option String) (xs ys : List PyVal),
        MultiSelectPropertyValue.update (.multiSelect id xs) (.list ys)
          = .ok (.multiSelect id ys))
    ∧ (∀ (id : Option String) (s0 e0 t0 : PyVal) (s1 : String),
        DatePropertyValue.update (.date id s0 e0 t0) (.str s1)
          = .ok (.date id (.str s1) e0 t0))
    ∧ (∀ (v w : PyVal), CheckboxPropertyValue.update (.checkbox v) w = .ok (.checkbox w))
    ∧ (∀ (id : Option String) (v w : PyVal),
        FormulaPropertyValue.update (.formula id v) w = .ok (.formula id w)) := by
  refine ⟨fun self t => rfl, fun s id t => rfl, fun id v n => rfl, fun id v q => rfl,
    fun id nm c nm2 => rfl, fun id xs ys => rfl, fun id s0 e0 t0 s1 => rfl,
    fun v w => rfl, fun id v w => rfl⟩

/-- C6 counterexample: constructing kind people fails with the generic
unknown-kind ValueError, not a NotImplemented error, and kind relation —
which the claim lists as live — does not construct either (the positional
call into the keyword-only `RelationPropertyValue.__init__` raises
TypeError). -/
theorem c6_counterexample :
    PropertyValueFactory.from_type "people" (.str "Alice")
        = .error (.valueError "Invalid property value type people")
    ∧ PropertyValueFactory.from_type "relation" (.str "page-id")
        = .error PyErr.typeError := by
  exact ⟨rfl, rfl⟩

/-- C6 amended: the reserved kinds (people, file, url, email, phone_number,
rollup) all fail fast, but with the generic unknown-kind ValueError rather
than a NotImplemented error; relation also fails (its constructor raises);
the remaining live kinds (title, rich_text, number, select, multi_select,
date, checkbox, formula) construct successfully on well-formed values. -/
theorem c6_amended :
    (∀ v : PyVal,
      PropertyValueFactory.from_type "people" v
          = .error (.valueError "Invalid property value type people")
      ∧ PropertyValueFactory.from_type "file" v
          = .error (.valueError "Invalid property value type file")
      ∧ PropertyValueFactory.from_type "url" v
          = .error (.valueError "Invalid property value type url")
      ∧ PropertyValueFactory.from_type "email" v
          = .error (.valueError "Invalid property value type email")
      ∧ PropertyValueFactory.from_type "phone_number" v
          = .error (.valueError "Invalid property value type phone_number")
      ∧ PropertyValueFactory.from_type "rollup" v
          = .error (.valueError "Invalid property value type rollup")
      ∧ PropertyValueFactory.from_type "relation" v = .error PyErr.typeError)
    ∧ (∀ v : PyVal,
      PropertyValueFactory.from_type "title" v = .ok (TitlePropertyValue.init v)
      ∧ PropertyValueFactory.from_type "rich_text" v = .ok (RichTextPropertyValue.init v)
      ∧ PropertyValueFactory.from_type "select" v = .ok (SelectPropertyValue.init v)
      ∧ PropertyValueFactory.from_type "date" v = .ok (DatePropertyValue.init v)
      ∧ PropertyValueFactory.from_type "checkbox" v = .ok (CheckboxPropertyValue.init v)
      ∧ PropertyValueFactory.from_type "formula" v = .ok (FormulaPropertyValue.init v))
    ∧ (∀ n : Int, PropertyValueFactory.from_type "number" (.int n)
        = .ok (.number Option.none (.int n)))
    ∧ (∀ q : Rat, PropertyValueFactory.from_type "number" (.float q)
        = .ok (.number Option.none (.float q)))
    ∧ (∀ xs : List PyVal, PropertyValueFactory.from_type "multi_select" (.list xs)
        = .ok (.multiSelect Option.none xs)) := by
  refine ⟨fun v => ⟨rfl, rfl, rfl, rfl, rfl, rfl, rfl⟩,
    fun v => ⟨rfl, rfl, rfl, rfl, rfl, rfl⟩, fun n => rfl, fun q => rfl, fun xs => rfl⟩

/-- C9: the claim (and the NumberPropertyValue docstring, whose example
shows an int serializing as a float) says native numbers are normalized to
a float-typed representation; the code only converts strings, so a native
int 20 is stored as the int 20 and serializes differently from the float
20.0 produced for the string form; the from_schema coercion half of the
claim does hold, yielding the float 30.0. -/
theorem c9_number_float_normalization :
    NumberPropertyValue.init (.int 20) = .ok (.number Option.none (.int 20))
    ∧ NumberPropertyValue.init (.str "20") = .ok (.number Option.none (.float 20))
    ∧ PyVal.int 20 ≠ PyVal.float 20
    ∧ PropertyValue.notion (.number Option.none (.int 20))
        ≠ PropertyValue.notion (.number Option.none (.float 20))
    ∧ Row.from_schema [("Age", .str "30")] (Schema.ofDict [("Name", "title"), ("Age", "number")])
        = .ok ⟨[("Age", .number Option.none (.float 30))]⟩
    ∧ (PropertyValue.number Option.none (.float 30)).value = some (.float 30) := by
  refine ⟨rfl, by decide, by decide, by decide, by decide, rfl⟩

/-- C10: after a successful rich text update with a new text, the wire
serialization carries the new text as the content of the first span, while
the semantic value accessor still reads the untouched plain_text and
returns the original text. -/
theorem c10_richtext_update_divergence (t t2 : String) (hne : t2 ≠ t) :
    ∃ y : PropertyValue,
      RichTextPropertyValue.update (RichTextPropertyValue.init (.str t)) (.str t2) = .ok y
      ∧ y.notion = .dict [("type", .str "rich_text"),
          ("rich_text", .list [.dict [("type", .str "text"),
            ("text", .dict [("content", .str t2), ("link", PyVal.none)]),
            ("annotations", annotsVal defaultAnnots),
            ("plain_text", .str t), ("href", PyVal.none)]])]
      ∧ y.value = some (.str t) := by
  exact ⟨_, rfl, rfl, rfl⟩

/-- C10 witness: the divergence at the concrete texts a and b. -/
theorem c10_witness :
    ("b" : String) ≠ "a"
    ∧ ∃ y : PropertyValue,
      RichTextPropertyValue.update (RichTextPropertyValue.init (.str "a")) (.str "b") = .ok y
      ∧ y.notion = .dict [("type", .str "rich_text"),
          ("rich_text", .list [.dict [("type", .str "text"),
            ("text", .dict [("content", .str "b"), ("link", PyVal.none)]),
            ("annotations", annotsVal defaultAnnots),
            ("plain_text", .str "a"), ("href", PyVal.none)]])]
      ∧ y.value = some (.str "a") :=
  ⟨by decide, c10_richtext_update_divergence "a" "b" (by decide)⟩

/-- C1 counterexample: for the title kind the round trip fails — the
factory feeds the wire payload (the span list) back into the constructor
as if it were the text, so deserializing the serialization of the title
value a neither returns the value nor re-serializes to the same JSON. -/
theorem c1_counterexample :
    (PropertyValueFactory.create (PropertyValue.notion (TitlePropertyValue.init (.str "a")))).map
        PropertyValue.notion
      ≠ .ok (PropertyValue.notion (TitlePropertyValue.init (.str "a")))
    ∧ PropertyValueFactory.create (PropertyValue.notion (TitlePropertyValue.init (.str "a")))
      ≠ .ok (TitlePropertyValue.init (.str "a")) := by
  exact ⟨by decide, by decide⟩

/-- C1 amended: the round trip `create` after `notion` is the identity
exactly for the kinds whose wire payload is passed to the constructor
unchanged — number, checkbox and formula — on id-less values whose stored
payload is present (not Python None) and, for number, not a string (the
constructor never stores one); re-serialization then reproduces the same
JSON.  For the wrapped kinds (title, rich_text, select, multi_select,
date) the factory re-wraps the payload and the round trip fails, as the
counterexample shows for title. -/
theorem c1_amended :
    (∀ v : PyVal, isStrV v = false → isNoneV v = false →
      PropertyValueFactory.create (PropertyValue.notion (.number Option.none v))
        = .ok (.number Option.none v))
    ∧ (∀ v : PyVal, isNoneV v = false →
      PropertyValueFactory.create (PropertyValue.notion (.checkbox v)) = .ok (.checkbox v))
    ∧ (∀ v : PyVal, isNoneV v = false →
      PropertyValueFactory.create (PropertyValue.notion (.formula Option.none v))
        = .ok (.formula Option.none v)) := by
  refine ⟨fun v hs hn => ?_, fun v hn => ?_, fun v hn => ?_⟩
  · cases v
    case none => exact absurd hn (by simp [isNoneV])
    case str s => exact absurd hs (by simp [isStrV])
    all_goals rfl
  · cases v
    case none => exact absurd hn (by simp [isNoneV])
    all_goals rfl
  · cases v
    case none => exact absurd hn (by simp [isNoneV])
    all_goals rfl

/-- C1 amended witness: a number value holding the int 5 round trips. -/
theorem c1_amended_witness :
    PropertyValueFactory.create (PropertyValue.notion (.number Option.none (.int 5)))
      = .ok (.number Option.none (.int 5)) :=
  c1_amended.1 (.int 5) rfl rfl

/-- C3: the sticky-title rule of `Row._add`.  If a row column currently
holds a title-kind value, assigning a raw value to it succeeds, keeps the
kind title and stores the raw value as the new semantic value; an explicit
PropertyValue replaces the slot wholesale (so only that path can change
the kind). -/
theorem c3_sticky_title (r : Row) (c : String) (pv : PropertyValue) (v : PyVal)
    (hc : alookup r.data c = some pv) (ht : pv.type = "title") :
    Row.setitem r c (.raw v) = .ok ⟨aset r.data c (TitlePropertyValue.init v)⟩
    ∧ alookup (aset r.data c (TitlePropertyValue.init v)) c
        = some (TitlePropertyValue.init v)
    ∧ (TitlePropertyValue.init v).type = "title"
    ∧ (TitlePropertyValue.init v).value = some v
    ∧ (∀ p : PropertyValue, Row.setitem r c (.pv p) = .ok ⟨aset r.data c p⟩) := by
  refine ⟨?_, alookup_aset_self r.data c _, rfl, rfl, fun p => rfl⟩
  simp [Row.setitem, Row._add, hc, ht, PropertyValueFactory.from_type,
    TitlePropertyValue.init, Except.map]

/-- C3 witness: setting the raw string Jane on the title column Name keeps
the kind title and stores Jane. -/
theorem c3_sticky_title_witness :
    Row.setitem ⟨[("Name", TitlePropertyValue.init (.str "John"))]⟩ "Name"
        (.raw (.str "Jane"))
      = .ok ⟨aset [("Name", TitlePropertyValue.init (.str "John"))] "Name"
          (TitlePropertyValue.init (.str "Jane"))⟩
    ∧ alookup (aset [("Name", TitlePropertyValue.init (.str "John"))] "Name"
          (TitlePropertyValue.init (.str "Jane"))) "Name"
        = some (TitlePropertyValue.init (.str "Jane"))
    ∧ (TitlePropertyValue.init (.str "Jane")).type = "title"
    ∧ (TitlePropertyValue.init (.str "Jane")).value = some (.str "Jane")
    ∧ (∀ p : PropertyValue,
        Row.setitem ⟨[("Name", TitlePropertyValue.init (.str "John"))]⟩ "Name" (.pv p)
          = .ok ⟨aset [("Name", TitlePropertyValue.init (.str "John"))] "Name" p⟩) :=
  c3_sticky_title ⟨[("Name", TitlePropertyValue.init (.str "John"))]⟩ "Name"
    (TitlePropertyValue.init (.str "John")) (.str "Jane") rfl rfl

/-- C4 counterexample: both mutations succeed individually — constructing
a schema with title column A, then assigning a second title column B —
with no rejection and no flag, yet the schema then contains two columns of
kind title. -/
theorem c4_counterexample :
    Schema.countTitles
        (Schema.setitem (Schema.ofDict [("A", "title")]) "B" (.kindStr "title")) = 2 := by
  decide

/-- C4 amended: the notiondb Schema performs no title-uniqueness
validation: assigning a title column under a fresh name always succeeds
(the operation is a total function) and increments the number of title
columns, with no rejection and no flag, so a schema can hold any number of
title columns. -/
theorem c4_amended (s : Schema) (name : String)
    (h : ahas s._columns name = false) :
    (Schema.setitem s name (.kindStr "title")).countTitles = s.countTitles + 1 := by
  simp only [Schema.setitem, Schema._add_column, Schema.countTitles]
  rw [aset_append_of_not_ahas s._columns name _ h]
  simp [List.filter_append]

/-- C4 amended witness: adding a second title column to a schema that
already has one yields two title columns. -/
theorem c4_amended_witness :
    (Schema.setitem (Schema.ofDict [("A", "title")]) "B" (.kindStr "title")).countTitles
      = (Schema.ofDict [("A", "title")]).countTitles + 1 :=
  c4_amended (Schema.ofDict [("A", "title")]) "B" rfl

/-- C7 counterexample: in the notiondb implementation, assigning the kind
number to the already-present column A raises no DuplicateColumn error —
the column is silently overwritten and the schema changes. -/
theorem c7_counterexample :
    alookup (Schema.setitem (Schema.ofDict [("A", "title")]) "A" (.kindStr "number"))._columns "A"
        = some { name := some "A", type := "number" }
    ∧ Schema.setitem (Schema.ofDict [("A", "title")]) "A" (.kindStr "number")
        ≠ Schema.ofDict [("A", "title")] := by
  exact ⟨by decide, by decide⟩

/-- C7 amended: only the alternate notion implementation behaves as
claimed: its `Schema.add` raises the duplicate-column ValueError before
mutating whenever the name is already present (for every datatype), so the
schema is left unchanged; the notiondb `_add_column` and item assignment
silently overwrite instead. -/
theorem c7_amended (ns : AltSchema) (name : String) (datatype : String)
    (h : ahas ns.properties name = true) :
    AltSchema.add ns name datatype
      = .error (.valueError "Duplicate column name encountered.") := by
  simp [AltSchema.add, h]

/-- C7 amended witness: adding the already-present column A fails with the
duplicate-column error. -/
theorem c7_amended_witness :
    AltSchema.add ⟨[("A", Option.none)], Option.none⟩ "A" "number"
      = .error (.valueError "Duplicate column name encountered.") :=
  c7_amended ⟨[("A", Option.none)], Option.none⟩ "A" "number" rfl

/-- C8: evaluating the rename path of the notion implementation at the
concrete schema of the claim.  Building the schema with column X of kind
number succeeds, and `rename_column` succeeds too, but because
`Property.rename` has no return statement the renamed property object is
dropped and the new slot Y holds Python None — its kind and config are
gone, contradicting the claim (and the docstring of `rename_column`) that
renaming preserves them. -/
theorem c8_rename_drops_property :
    AltSchema.initLT ["X"] ["number"] = .ok ⟨[("X", some altNumberPropX)], Option.none⟩
    ∧ AltSchema.rename_column ⟨[("X", some altNumberPropX)], Option.none⟩ "X" "Y"
      = .ok ⟨[("Y", Option.none)], Option.none⟩ := by
  exact ⟨by decide, by decide⟩

end NotionDB
